import Mathlib

/-!
# Verification of the sunshine-identity device-key keystore and service identifier parser

This file gives a shallow embedding of the parts of the repository the claims
are about:

* `src/client/src/service.rs` — the `Service` identifier type, its `Display`
  implementation and its `FromStr` parser.  Rust strings are embedded as
  `List Char`; Rust's `str::split("@")` (a single-character separator) is
  embedded as `splitChar '@'`, which has exactly the semantics of the Rust
  iterator collected to a list (`"" ↦ [""]`, `"a@b" ↦ ["a","b"]`, …).
* `src/keystore/substrate/src/lib.rs` — the `Keystore<T, P>` wrapper.  The
  underlying `keybase_keystore::Keystore` belongs to this repository but its
  source is not available here, so it is modelled from the specification
  (every such definition carries a `Modelled from the spec:` doc comment).
  The opaque cryptographic capabilities (KDF, authenticated cipher, signature
  scheme) are embedded symbolically: a ciphertext records the key it was
  encrypted under together with the plaintext seed, and decryption fails
  closed on a key mismatch, which is the standard symbolic model of
  authenticated encryption.  Generations are `u16` values embedded as `Nat`
  (no claim exercises wrap-around).

Mutating Rust methods (`&mut self`) are embedded as functions returning the
result together with the post-state, so that frame conditions ("the failure
path leaves the state untouched") are genuine theorems rather than artefacts
of the embedding.  The one `&self` method (`change_password_mask`) is embedded
as a pure function, mirroring the fact that the receiver type already forbids
mutation of the wrapper's fields.
-/

deriving instance DecidableEq for Except

namespace Sunshine

/-! ## Service parsing (`src/client/src/service.rs`) -/

/-- `enum Service { Github(String) }`, with the `String` embedded as `List Char`. -/
inductive Service where
  | Github (username : List Char)
deriving DecidableEq

/-- `enum ServiceParseError { Invalid, Unknown(String) }`. -/
inductive ServiceParseError where
  | Invalid
  | Unknown (service : List Char)
deriving DecidableEq

/-- Embedding of Rust's `str::split(sep)` for a one-character separator,
collected into a list: `split` always yields at least one (possibly empty)
piece, and a separator at either end yields an empty piece there. -/
def splitChar (sep : Char) : List Char → List (List Char)
  | [] => [[]]
  | c :: cs =>
    if c = sep then [] :: splitChar sep cs
    else
      match splitChar sep cs with
      | [] => [[c]]
      | p :: ps => (c :: p) :: ps

/-- `Service::username`. -/
def Service.username : Service → List Char
  | .Github u => u

/-- `Service::service` (the service name rendered by `Display`). -/
def Service.serviceName : Service → List Char
  | .Github _ => "github".data

/-- `impl Display for Service`: `write!(f, "{}@{}", self.username(), self.service())`. -/
def Service.display (s : Service) : List Char :=
  s.username ++ '@' :: s.serviceName

/-- `impl FromStr for Service`: split on `"@"`, take the username part
(must be non-empty), the service part (must be non-empty), reject a third
part, then recognise the service name (`"github"` only, anything else is
`Unknown`). -/
def Service.fromStr (string : List Char) : Except ServiceParseError Service :=
  match splitChar '@' string with
  | [] => .error .Invalid
  | username :: rest =>
    if username = [] then .error .Invalid
    else
      match rest with
      | [] => .error .Invalid
      | service :: rest2 =>
        if service = [] then .error .Invalid
        else
          match rest2 with
          | _ :: _ => .error .Invalid
          | [] =>
            if service = "github".data then .ok (.Github username)
            else .error (.Unknown service)

theorem splitChar_ne_nil (sep : Char) (l : List Char) : splitChar sep l ≠ [] := by
  cases l with
  | nil => simp [splitChar]
  | cons c cs =>
    simp only [splitChar]
    split
    · simp
    · split <;> simp

/-- Joining pieces back with the separator; inverse of `splitChar`. -/
def joinSep (sep : Char) : List (List Char) → List Char
  | [] => []
  | [p] => p
  | p :: q :: ps => p ++ sep :: joinSep sep (q :: ps)

theorem joinSep_cons_cons (sep c : Char) (p : List Char) (ps : List (List Char)) :
    joinSep sep ((c :: p) :: ps) = c :: joinSep sep (p :: ps) := by
  cases ps <;> simp [joinSep]

theorem joinSep_splitChar (sep : Char) (l : List Char) :
    joinSep sep (splitChar sep l) = l := by
  induction l with
  | nil => simp [splitChar, joinSep]
  | cons c cs ih =>
    simp only [splitChar]
    by_cases hc : c = sep
    · rw [if_pos hc]
      cases h : splitChar sep cs with
      | nil => exact absurd h (splitChar_ne_nil sep cs)
      | cons p ps =>
        rw [h] at ih
        simp [joinSep, hc, ih]
    · rw [if_neg hc]
      cases h : splitChar sep cs with
      | nil => exact absurd h (splitChar_ne_nil sep cs)
      | cons p ps =>
        rw [h] at ih
        rw [joinSep_cons_cons, ih]

theorem not_mem_of_mem_splitChar (sep : Char) (l : List Char) :
    ∀ p ∈ splitChar sep l, sep ∉ p := by
  induction l with
  | nil =>
    intro p hp
    simp [splitChar] at hp
    simp [hp]
  | cons c cs ih =>
    intro p hp
    simp only [splitChar] at hp
    by_cases hc : c = sep
    · rw [if_pos hc] at hp
      rcases List.mem_cons.mp hp with h | h
      · simp [h]
      · exact ih p h
    · rw [if_neg hc] at hp
      cases h : splitChar sep cs with
      | nil => exact absurd h (splitChar_ne_nil sep cs)
      | cons q qs =>
        rw [h] at hp
        rcases List.mem_cons.mp hp with h1 | h1
        · subst h1
          intro hmem
          rcases List.mem_cons.mp hmem with h2 | h2
          · exact hc h2.symm
          · exact ih q (h ▸ List.mem_cons_self q qs) h2
        · exact ih p (h ▸ List.mem_cons_of_mem q h1)

theorem splitChar_append (sep : Char) (u v : List Char) (hm : sep ∉ u) :
    splitChar sep (u ++ sep :: v) = u :: splitChar sep v := by
  induction u with
  | nil => simp [splitChar]
  | cons c u' ih =>
    have hc : c ≠ sep := fun h => hm (h ▸ List.mem_cons_self c u')
    have hm' : sep ∉ u' := fun h => hm (List.mem_cons_of_mem c h)
    show splitChar sep (c :: (u' ++ sep :: v)) = (c :: u') :: splitChar sep v
    simp only [splitChar, if_neg hc, ih hm']

theorem splitChar_of_not_mem (sep : Char) (u : List Char) (hm : sep ∉ u) :
    splitChar sep u = [u] := by
  induction u with
  | nil => simp [splitChar]
  | cons c u' ih =>
    have hc : c ≠ sep := fun h => hm (h ▸ List.mem_cons_self c u')
    have hm' : sep ∉ u' := fun h => hm (List.mem_cons_of_mem c h)
    simp only [splitChar, if_neg hc, ih hm']

theorem fromStr_valid_github (u : List Char) (hu : u ≠ []) (hm : '@' ∉ u) :
    Service.fromStr (u ++ '@' :: "github".data) = .ok (.Github u) := by
  unfold Service.fromStr
  rw [splitChar_append '@' u _ hm, splitChar_of_not_mem '@' _ (by decide)]
  simp [hu]

theorem fromStr_unknown_service (u v : List Char) (hu : u ≠ []) (hv : v ≠ [])
    (hmu : '@' ∉ u) (hmv : '@' ∉ v) (hne : v ≠ "github".data) :
    Service.fromStr (u ++ '@' :: v) = .error (.Unknown v) := by
  unfold Service.fromStr
  rw [splitChar_append '@' u _ hmu, splitChar_of_not_mem '@' _ hmv]
  simp [hu, hv, hne]

theorem fromStr_ok_elim (s : List Char) (x : Service)
    (h : Service.fromStr s = .ok x) :
    ∃ u, x = .Github u ∧ u ≠ [] ∧ '@' ∉ u ∧ s = u ++ '@' :: "github".data := by
  have hjoin := joinSep_splitChar '@' s
  have hmem := not_mem_of_mem_splitChar '@' s
  unfold Service.fromStr at h
  cases hp : splitChar '@' s with
  | nil => rw [hp] at h; exact absurd h (by simp)
  | cons username rest =>
    rw [hp] at h hjoin hmem
    dsimp only at h
    by_cases hu : username = []
    · rw [if_pos hu] at h; exact absurd h (by simp)
    · rw [if_neg hu] at h
      cases rest with
      | nil => exact absurd h (by simp)
      | cons service rest2 =>
        dsimp only at h
        by_cases hsv : service = []
        · rw [if_pos hsv] at h; exact absurd h (by simp)
        · rw [if_neg hsv] at h
          cases rest2 with
          | cons r rs => exact absurd h (by simp)
          | nil =>
            by_cases hg : service = "github".data
            · rw [if_pos hg] at h
              cases h
              refine ⟨username, rfl, hu, hmem username (List.mem_cons_self _ _), ?_⟩
              subst hg
              simpa [joinSep] using hjoin.symm
            · rw [if_neg hg] at h; exact absurd h (by simp)

/-- C7: `Service::from_str` fails exactly when the username half is empty, the
service half is empty, there is no `@`, more than one `@` is present, or the
service is not recognized (only `"github"` is; an unrecognized service is
surfaced as `ServiceParseError::Unknown` carrying the service name); and
`"alice@github"` parses to username `"alice"`, service `"github"`.  Success is
characterized as: the input is a non-empty `@`-free username followed by
`'@'` and exactly `"github"`. -/
theorem C7_fromStr_characterization :
    (∀ s : List Char,
        (∃ x, Service.fromStr s = .ok x) ↔
          ∃ u, u ≠ [] ∧ '@' ∉ u ∧ s = u ++ '@' :: "github".data) ∧
    (∀ u v : List Char, u ≠ [] → v ≠ [] → '@' ∉ u → '@' ∉ v → v ≠ "github".data →
        Service.fromStr (u ++ '@' :: v) = .error (.Unknown v)) ∧
    Service.fromStr "alice@github".data = .ok (.Github "alice".data) ∧
    Service.fromStr "alice@".data = .error .Invalid ∧
    Service.fromStr "alice".data = .error .Invalid ∧
    Service.fromStr "a@b@c".data = .error .Invalid := by
  refine ⟨?_, fromStr_unknown_service, by decide, by decide, by decide, by decide⟩
  intro s
  constructor
  · rintro ⟨x, hx⟩
    obtain ⟨u, -, hu, hm, hs⟩ := fromStr_ok_elim s x hx
    exact ⟨u, hu, hm, hs⟩
  · rintro ⟨u, hu, hm, rfl⟩
    exact ⟨.Github u, fromStr_valid_github u hu hm⟩

/-- C7 witness: the characterization applied at the concrete input
`"alice@gitlab"`, which fails with `Unknown "gitlab"`. -/
theorem C7_fromStr_characterization_witness :
    Service.fromStr ("alice".data ++ '@' :: "gitlab".data) =
      .error (.Unknown "gitlab".data) :=
  C7_fromStr_characterization.2.1 "alice".data "gitlab".data
    (by decide) (by decide) (by decide) (by decide) (by decide)

/-- C8 counterexample: the round-trip `from_str ∘ to_string` fails for
`Service::Github("")`: it renders as `"@github"`, whose username half is
empty, so parsing yields `Invalid` instead of the original value. -/
theorem C8_roundtrip_counterexample :
    Service.fromStr (Service.display (.Github [])) = .error .Invalid ∧
    Service.fromStr (Service.display (.Github [])) ≠ .ok (.Github []) := by
  decide

/-- C8 (amended): `Display` always renders the canonical
`"<username>@<service>"` form, and for every `Service` whose username is
non-empty and contains no `'@'`, parsing the rendered string returns the
original value. -/
theorem C8_roundtrip_amended :
    (∀ s : Service, Service.display s = s.username ++ '@' :: s.serviceName) ∧
    (∀ s : Service, s.username ≠ [] → '@' ∉ s.username →
        Service.fromStr (Service.display s) = .ok s) := by
  refine ⟨fun s => rfl, ?_⟩
  intro s hu hm
  cases s with
  | Github u => exact fromStr_valid_github u hu hm

/-- C8 witness: the amended round-trip applied at `Github "alice"`. -/
theorem C8_roundtrip_amended_witness :
    Service.fromStr (Service.display (.Github "alice".data)) =
      .ok (.Github "alice".data) :=
  C8_roundtrip_amended.2 (.Github "alice".data) (by decide) (by decide)

/-! ## Device-key keystore (`src/keystore/substrate/src/lib.rs`)

The wrapper `Keystore<T, P>` is embedded from the source.  The underlying
`keybase_keystore::Keystore` is code of this repository that is not under
`src/`, so it is modelled from the specification (doc comments quote the
relevant sentences).  Cryptography is symbolic: a 32-byte value is a `Nat`,
a ciphertext records the encryption key and the plaintext seed, and the
key-derivation function and account derivation are injective placeholders. -/

/-- A 32-byte secret seed, symbolic. -/
abbrev Seed := Nat

/-- A 32-byte password-derived encryption key, symbolic. -/
abbrev EncKey := Nat

/-- A password (already hashed to its 32-byte form at the wrapper boundary). -/
abbrev Password := Nat

/-- A 32-byte mask (XOR delta of two encryption keys). -/
abbrev Mask := Nat

/-- A chain account identifier. -/
abbrev AccountId := Nat

/-- Symbolic authenticated ciphertext: records the key it was produced under
and the plaintext seed. -/
abbrev Ciphertext := EncKey × Seed

/-- Modelled from the spec: `keyFor(password) -> [32]byte` is a deterministic
key derivation with independent outputs for distinct passwords; symbolically
an injective map. -/
def keyFor (password : Password) : EncKey := password

/-- Modelled from the spec: authenticated encryption, symbolic. -/
def encrypt (key : EncKey) (seed : Seed) : Ciphertext := (key, seed)

/-- Modelled from the spec: authenticated decryption "must fail closed
(detect tampering/wrong key) rather than silently returning garbage". -/
def decrypt (key : EncKey) (c : Ciphertext) : Option Seed :=
  if c.1 = key then some c.2 else none

/-- Error taxonomy of the keystore (spec §7). -/
inductive Error where
  | StorageError
  | HasDeviceKey
  | DecryptionError
  | StaleGenerationError
  | NoDeviceKey
deriving DecidableEq

/-- Modelled from the spec: the persisted-plus-in-memory state of
`keybase_keystore::Keystore` — `EncryptedStore` is the persisted
`{ ciphertext, generation }`; `curKey` is the in-memory current encryption
key cached while the store is unlocked (cleared by `lock`). -/
structure KeybaseKeystore where
  ciphertext : Option Ciphertext
  generation : Nat
  curKey : Option EncKey
deriving DecidableEq

/-- Modelled from the spec: `gen() -> GenerationCounter`, a pure read of the
persisted generation. -/
def KeybaseKeystore.gen (ks : KeybaseKeystore) : Nat := ks.generation

/-- Modelled from the spec: `device_key()` yields the decrypted seed only if
the store is currently unlocked; a freshly opened store has no cached key, so
this fails without decrypting anything. -/
def KeybaseKeystore.deviceKey (ks : KeybaseKeystore) : Except Error Seed :=
  match ks.curKey, ks.ciphertext with
  | some key, some c =>
    match decrypt key c with
    | some seed => .ok seed
    | none => .error .DecryptionError
  | _, _ => .error .NoDeviceKey

/-- Modelled from the spec: `unlock(password)` decrypts the `EncryptedStore`
with `keyFor(password)`; on failure (wrong password / corrupted ciphertext) it
fails with `DecryptionError` and leaves prior state unchanged. -/
def KeybaseKeystore.unlock (ks : KeybaseKeystore) (password : Password) :
    Except Error Seed × KeybaseKeystore :=
  match ks.ciphertext with
  | none => (.error .NoDeviceKey, ks)
  | some c =>
    match decrypt (keyFor password) c with
    | none => (.error .DecryptionError, ks)
    | some seed => (.ok seed, { ks with curKey := some (keyFor password) })

/-- Modelled from the spec: `lock()` always succeeds and clears the cached
key material; persisted state is untouched. -/
def KeybaseKeystore.lock (ks : KeybaseKeystore) : Except Error Unit × KeybaseKeystore :=
  (.ok (), { ks with curKey := none })

/-- Modelled from the spec: `provision_device(password, gen)` requires that no
device key is provisioned (`HasDeviceKey` otherwise), creates a fresh seed
(the entropy source is passed in explicitly as `freshSeed`), persists the
Cipher-encrypted seed at `gen`, and leaves the store active. -/
def KeybaseKeystore.provisionDeviceKey (ks : KeybaseKeystore) (password : Password)
    (gen : Nat) (freshSeed : Seed) : Except Error Seed × KeybaseKeystore :=
  if ks.ciphertext.isSome then (.error .HasDeviceKey, ks)
  else
    (.ok freshSeed,
      { ciphertext := some (encrypt (keyFor password) freshSeed)
        generation := gen
        curKey := some (keyFor password) })

/-- Modelled from the spec: `change_password_mask(new_password)` requires the
store to be unlocked (it needs the current key), computes
`mask = keyFor(new_password) XOR currentKey` and returns it with the
generation it targets (`current_gen + 1`) without mutating any state. -/
def KeybaseKeystore.changePasswordMask (ks : KeybaseKeystore)
    (newPassword : Password) : Except Error (Mask × Nat) :=
  match ks.curKey with
  | none => .error .NoDeviceKey
  | some key => .ok (Nat.xor (keyFor newPassword) key, ks.generation + 1)

/-- Modelled from the spec: `apply_mask(mask, next_gen)` requires
`next_gen == current_gen + 1` (fencing check), failing with
`StaleGenerationError` otherwise without mutating anything; on success it
re-keys the ciphertext by XOR-ing the mask into the key material and persists
the new ciphertext and generation. -/
def KeybaseKeystore.applyMask (ks : KeybaseKeystore) (mask : Mask)
    (nextGen : Nat) : Except Error Unit × KeybaseKeystore :=
  if nextGen = ks.generation + 1 then
    match ks.ciphertext with
    | none => (.error .NoDeviceKey, ks)
    | some c =>
      (.ok (),
        { ks with
            ciphertext := some (Nat.xor c.1 mask, c.2)
            generation := nextGen })
  else (.error .StaleGenerationError, ks)

/-- `PairSigner<T, P>`: symbolically determined by the seed it was built from. -/
abbrev PairSigner := Nat

/-- `Key<T, P>` of the wrapper: wraps a `DeviceKey` seed. -/
structure Key where
  key : Seed
deriving DecidableEq

/-- `Key::from_seed`. -/
def Key.fromSeed (seed : Seed) : Key := ⟨seed⟩

/-- `Key::to_signer`: `PairSigner::new(P::from_seed(self.key.expose_secret()))`,
symbolic in the signature scheme. -/
def Key.toSigner (k : Key) : PairSigner := k.key

/-- `account_id()` of a `PairSigner`: the public identity derived
deterministically from the seed; symbolic in the signature scheme. -/
def signerAccountId (signer : PairSigner) : AccountId := signer

/-- The wrapper `Keystore<T, P>` of `src/keystore/substrate/src/lib.rs`:
the underlying keybase keystore, the optional cached signer, and the cached
generation field `gen`. -/
structure Keystore where
  keystore : KeybaseKeystore
  signer : Option PairSigner
  gen : Nat
deriving DecidableEq

/-- The persisted content behind a storage path: optional ciphertext and
optional generation (an absent file is the valid "unprovisioned" state). -/
structure Persisted where
  ciphertext : Option Ciphertext
  generation : Option Nat
deriving DecidableEq

/-- Modelled from the spec: `keybase_keystore::Keystore::new(path)` followed
by loading — "loads persisted generation (default 0 if absent)"; nothing is
decrypted, so no key is cached. -/
def KeybaseKeystore.openNew (p : Persisted) : KeybaseKeystore :=
  { ciphertext := p.ciphertext
    generation := p.generation.getD 0
    curKey := none }

/-- `Keystore::open` (success path): builds the underlying keystore, reads
`gen`, and sets the signer only if `device_key()` succeeds. -/
def Keystore.openStore (p : Persisted) : Keystore :=
  let keystore := KeybaseKeystore.openNew p
  let gen := keystore.gen
  let signer :=
    match keystore.deviceKey with
    | .ok key => some (Key.toSigner (Key.fromSeed key))
    | .error _ => none
  { keystore := keystore, signer := signer, gen := gen }

/-- `Keystore::chain_signer`: `self.signer.as_ref()`. -/
def Keystore.chainSigner (ks : Keystore) : Option PairSigner := ks.signer

/-- `Keystore::offchain_signer`: `self.signer.as_ref()`. -/
def Keystore.offchainSigner (ks : Keystore) : Option PairSigner := ks.signer

/-- `Keystore::unlock`: delegates to the underlying keystore; on success
caches the signer built from the decrypted seed; the `?` on the underlying
call propagates failures before any field of `self` is written. -/
def Keystore.unlock (ks : Keystore) (password : Password) :
    Except Error Unit × Keystore :=
  match ks.keystore.unlock password with
  | (.error e, kb) => (.error e, { ks with keystore := kb })
  | (.ok seed, kb) =>
    (.ok (), { ks with keystore := kb, signer := some (Key.toSigner (Key.fromSeed seed)) })

/-- `Keystore::lock`: `self.signer = None; self.keystore.lock().await`. -/
def Keystore.lock (ks : Keystore) : Except Error Unit × Keystore :=
  let ks1 : Keystore := { ks with signer := none }
  match ks1.keystore.lock with
  | (r, kb) => (r, { ks1 with keystore := kb })

/-- `Keystore::provision_device`: delegates to `provision_device_key`, caches
the signer from the fresh device key, then returns
`self.chain_signer().unwrap().account_id()`.  The `unwrap` is modelled by the
outer `Option`: `none` stands for the panic that would occur if
`chain_signer()` were `None` at that point. -/
def Keystore.provisionDevice (ks : Keystore) (password : Password) (gen : Nat)
    (freshSeed : Seed) : Option (Except Error AccountId × Keystore) :=
  match ks.keystore.provisionDeviceKey password gen freshSeed with
  | (.error e, kb) => some (.error e, { ks with keystore := kb })
  | (.ok deviceKey, kb) =>
    let key := Key.fromSeed deviceKey
    let ks1 : Keystore := { ks with keystore := kb, signer := some (Key.toSigner key) }
    match ks1.chainSigner with
    | some signer => some (.ok (signerAccountId signer), ks1)
    | none => none

/-- `Keystore::change_password_mask`: a `&self` method (the receiver type
already forbids mutation of the wrapper fields), delegating to the underlying
keystore; embedded as a pure function. -/
def Keystore.changePasswordMask (ks : Keystore) (password : Password) :
    Except Error (Mask × Nat) :=
  ks.keystore.changePasswordMask password

/-- `Keystore::apply_mask`: delegates to the underlying keystore and, only on
success, updates the cached generation field to `next_gen`. -/
def Keystore.applyMask (ks : Keystore) (mask : Mask) (nextGen : Nat) :
    Except Error Unit × Keystore :=
  match ks.keystore.applyMask mask nextGen with
  | (.error e, kb) => (.error e, { ks with keystore := kb })
  | (.ok _, kb) => (.ok (), { ks with keystore := kb, gen := nextGen })

/-- C1 evaluated at a failing input: on a freshly opened, unprovisioned store
at generation 0, `provision_device(password, 1)` succeeds (first component is
`ok`), yet the value returned by `gen()` is still 0 (second component) while
the persisted generation has moved to 1 (third component) — the cached `gen`
field updated by `apply_mask` is never updated by `provision_device`, so
`gen()` does not increase by 1 as the claim states. -/
theorem C1_provision_leaves_cached_gen :
    ((Keystore.openStore ⟨none, some 0⟩).provisionDevice 1 1 7).map
        (fun rks => (rks.1.isOk, rks.2.gen, rks.2.keystore.generation)) =
      some (true, 0, 1) := by
  decide

/-- C2: for every wrapper state, mask and `next_gen`, if `next_gen` is not
the successor of the current (persisted) generation then `apply_mask` fails
with `StaleGenerationError` and returns the state exactly as it was — the
persisted generation and ciphertext and the value returned by `gen()` are
all untouched. -/
theorem C2_applyMask_stale_frame (ks : Keystore) (mask : Mask) (nextGen : Nat)
    (h : nextGen ≠ ks.keystore.generation + 1) :
    ks.applyMask mask nextGen = (.error .StaleGenerationError, ks) := by
  unfold Keystore.applyMask KeybaseKeystore.applyMask
  rw [if_neg h]

/-- C2 witness: the frame theorem applied at a concrete keystore at
generation 3 with a replayed `next_gen = 7`. -/
theorem C2_applyMask_stale_frame_witness :
    (Keystore.mk ⟨some (5, 9), 3, none⟩ none 3).applyMask 2 7 =
      (.error .StaleGenerationError, Keystore.mk ⟨some (5, 9), 3, none⟩ none 3) :=
  C2_applyMask_stale_frame (Keystore.mk ⟨some (5, 9), 3, none⟩ none 3) 2 7 (by decide)

/-- C3: a failed `unlock` leaves every component of the wrapper state exactly
as it was (signer — in particular it stays absent if it was absent — cached
generation and underlying store), and when the failure cause is a wrong
password or corrupted ciphertext (key mismatch on a present ciphertext) the
error is precisely `DecryptionError`. -/
theorem C3_unlock_failure_frame (ks : Keystore) (password : Password) :
    (∀ c, ks.keystore.ciphertext = some c → c.1 ≠ keyFor password →
        ks.unlock password = (.error .DecryptionError, ks)) ∧
    (∀ e ks', ks.unlock password = (.error e, ks') → ks' = ks) := by
  constructor
  · intro c hc hk
    unfold Keystore.unlock KeybaseKeystore.unlock
    rw [hc]
    simp only [decrypt, if_neg hk]
  · intro e ks' h
    unfold Keystore.unlock KeybaseKeystore.unlock at h
    cases hc : ks.keystore.ciphertext with
    | none =>
      rw [hc] at h
      dsimp only at h
      injection h with h1 h2
      exact h2.symm
    | some c =>
      rw [hc] at h
      dsimp only at h
      cases hd : decrypt (keyFor password) c with
      | none =>
        rw [hd] at h
        dsimp only at h
        injection h with h1 h2
        exact h2.symm
      | some seed =>
        rw [hd] at h
        dsimp only at h
        injection h with h1 h2
        exact absurd h1 (by simp)

/-- C3 witness: the frame theorem applied at a keystore whose ciphertext is
encrypted under key 5, unlocked with the wrong password 4. -/
theorem C3_unlock_failure_frame_witness :
    (Keystore.mk ⟨some (5, 9), 1, none⟩ none 1).unlock 4 =
      (.error .DecryptionError, Keystore.mk ⟨some (5, 9), 1, none⟩ none 1) :=
  (C3_unlock_failure_frame (Keystore.mk ⟨some (5, 9), 1, none⟩ none 1) 4).1
    (5, 9) rfl (by decide)

/-- C4: for every persisted content on which `open` succeeds, the returned
keystore has its signer unset — `chain_signer()` and `offchain_signer()`
return `None` — and `gen()` returns the persisted generation (0 if absent);
nothing is decrypted because a fresh store has no cached key. -/
theorem C4_open_signer_unset_gen (p : Persisted) :
    (Keystore.openStore p).signer = none ∧
    (Keystore.openStore p).chainSigner = none ∧
    (Keystore.openStore p).offchainSigner = none ∧
    (Keystore.openStore p).gen = p.generation.getD 0 :=
  ⟨rfl, rfl, rfl, rfl⟩

/-- C4 witness: `open` on an absent file yields no signer and generation 0. -/
theorem C4_open_signer_unset_gen_witness :
    (Keystore.openStore ⟨none, none⟩).signer = none ∧
    (Keystore.openStore ⟨none, none⟩).chainSigner = none ∧
    (Keystore.openStore ⟨none, none⟩).offchainSigner = none ∧
    (Keystore.openStore ⟨none, none⟩).gen = Option.getD none 0 :=
  C4_open_signer_unset_gen ⟨none, none⟩

/-- C5: on every unlocked keystore (current key cached), the `&self` method
`change_password_mask` returns a pair whose second component is the current
persisted generation plus 1; the receiver is shared, so the embedding is a
pure function and the call mutates neither the persisted store, nor `gen()`,
nor the cached signer. -/
theorem C5_changePasswordMask_next_gen (ks : Keystore) (newPassword : Password)
    (key : EncKey) (h : ks.keystore.curKey = some key) :
    ks.changePasswordMask newPassword =
      .ok (Nat.xor (keyFor newPassword) key, ks.keystore.generation + 1) := by
  unfold Keystore.changePasswordMask KeybaseKeystore.changePasswordMask
  rw [h]

/-- C5 witness: the mask theorem applied at a concrete unlocked keystore at
generation 1 with new password 8. -/
theorem C5_changePasswordMask_next_gen_witness :
    (Keystore.mk ⟨some (5, 9), 1, some 5⟩ (some 9) 1).changePasswordMask 8 =
      .ok (Nat.xor (keyFor 8) 5, 2) :=
  C5_changePasswordMask_next_gen (Keystore.mk ⟨some (5, 9), 1, some 5⟩ (some 9) 1)
    8 5 rfl

/-- C6: `lock()` always succeeds, after it the cached signer is cleared so
`chain_signer()` and `offchain_signer()` return `None`, and locking again in
the locked state succeeds with the same resulting state (idempotent). -/
theorem C6_lock_idempotent (ks : Keystore) :
    (ks.lock).1 = .ok () ∧
    (ks.lock).2.chainSigner = none ∧
    (ks.lock).2.offchainSigner = none ∧
    ((ks.lock).2).lock = (.ok (), (ks.lock).2) :=
  ⟨rfl, rfl, rfl, rfl⟩

/-- C6 witness: `lock` on a concrete unlocked keystore. -/
theorem C6_lock_idempotent_witness :
    ((Keystore.mk ⟨some (5, 9), 1, some 5⟩ (some 9) 1).lock).1 = .ok () ∧
    ((Keystore.mk ⟨some (5, 9), 1, some 5⟩ (some 9) 1).lock).2.chainSigner = none ∧
    ((Keystore.mk ⟨some (5, 9), 1, some 5⟩ (some 9) 1).lock).2.offchainSigner = none ∧
    (((Keystore.mk ⟨some (5, 9), 1, some 5⟩ (some 9) 1).lock).2).lock =
      (.ok (), ((Keystore.mk ⟨some (5, 9), 1, some 5⟩ (some 9) 1).lock).2) :=
  C6_lock_idempotent (Keystore.mk ⟨some (5, 9), 1, some 5⟩ (some 9) 1)

/-- C10: whenever the underlying `provision_device_key` call succeeds, the
wrapper sets the cached signer before reading the account id, so the
`chain_signer().unwrap()` on the return path never panics (the result is
`some`, never the panic marker `none`) and the method returns `Ok` with the
account id derived from the freshly provisioned key. -/
theorem C10_provision_no_panic (ks : Keystore) (password : Password) (gen : Nat)
    (freshSeed deviceKey : Seed) (kb : KeybaseKeystore)
    (h : ks.keystore.provisionDeviceKey password gen freshSeed = (.ok deviceKey, kb)) :
    ks.provisionDevice password gen freshSeed =
      some (.ok (signerAccountId (Key.toSigner (Key.fromSeed deviceKey))),
        { ks with
            keystore := kb
            signer := some (Key.toSigner (Key.fromSeed deviceKey)) }) := by
  unfold Keystore.provisionDevice
  rw [h]
  rfl

/-- C10 witness: provisioning an empty store with password 1 at generation 1
from fresh seed 7 returns `Ok` with the account id of seed 7. -/
theorem C10_provision_no_panic_witness :
    (Keystore.mk ⟨none, 0, none⟩ none 0).provisionDevice 1 1 7 =
      some (.ok (signerAccountId (Key.toSigner (Key.fromSeed 7))),
        { keystore := ⟨some (encrypt (keyFor 1) 7), 1, some (keyFor 1)⟩
          signer := some (Key.toSigner (Key.fromSeed 7))
          gen := 0 }) :=
  C10_provision_no_panic (Keystore.mk ⟨none, 0, none⟩ none 0) 1 1 7 7
    ⟨some (encrypt (keyFor 1) 7), 1, some (keyFor 1)⟩ rfl

end Sunshine
